import Mathlib

/-!
A verification development for `smoke_detector_monitor.py`: a shallow embedding
of the MAX30101 smoke-detector monitoring engine (per-channel statistics,
z-score alert evaluation, serial-line parsing and frame dispatch), together
with theorems checking the natural-language specification against it.

Modelling conventions:
* Python floats are modelled by an ordered field `α` (instantiated at `ℚ` for
  executable witnesses and at `ℝ` where the numpy square root matters);
  `np.nan` is an explicit constructor of `NF α`, and arithmetic on `NF`
  propagates NaN as IEEE/numpy do on the operations the source uses.
* Side effects (database inserts, e-mails, power-supply shutdown, settings
  mutation, calibration logging) are reified as an `Event` trace returned by
  the embedded functions; the trace vocabulary includes `updateSetting` because
  the surrounding `run()` loop mutates settings, so the absence of such an
  event in a trace is a meaningful statement, not a modelling artefact.
* `numpy.nanstd` needs a square root; the embedding takes `sqrt : α → α` as an
  explicit parameter and the real-number theorems instantiate it with
  `Real.sqrt`.
-/

namespace SmokeMonitor

/-- A Python/numpy floating value that may be NaN (`np.nan`). -/
inductive NF (α : Type) where
  | nan : NF α
  | val : α → NF α
deriving DecidableEq

/-- Subtraction with NaN propagation, as numpy floats behave. -/
def NF.sub {α : Type} [LinearOrderedField α] : NF α → NF α → NF α
  | NF.val a, NF.val b => NF.val (a - b)
  | _, _ => NF.nan

/-- Division with NaN propagation.  In the source this division is only
reached under the guard `self.sds[key] != 0`, so the `val/val` case never
divides by a zero standard deviation. -/
def NF.div {α : Type} [LinearOrderedField α] : NF α → NF α → NF α
  | NF.val a, NF.val b => NF.val (a / b)
  | _, _ => NF.nan

/-- `abs(x) > c` as Python evaluates it: any comparison with NaN is `False`. -/
def NF.absGt {α : Type} [LinearOrderedField α] : NF α → α → Bool
  | NF.nan, _ => false
  | NF.val a, c => decide (c < |a|)

/-- The three MAX30101 wavelengths. -/
inductive Wavelength where
  | R : Wavelength
  | G : Wavelength
  | IR : Wavelength
deriving DecidableEq

/-- The dictionary key used for a wavelength in the Python dicts. -/
def Wavelength.key : Wavelength → String
  | Wavelength.R => "R"
  | Wavelength.G => "G"
  | Wavelength.IR => "IR"

/-- The iteration order R, G, IR used throughout the source. -/
def wavelengths : List Wavelength := [Wavelength.R, Wavelength.G, Wavelength.IR]

/-- A dict whose keys are exactly R, G, IR (e.g. `saved_values`,
`means`, `sds` in `SmokeDetectorChannel.__init__`). -/
structure WTriple (β : Type) where
  R : β
  G : β
  IR : β
deriving DecidableEq

def WTriple.get {β : Type} (t : WTriple β) : Wavelength → β
  | Wavelength.R => t.R
  | Wavelength.G => t.G
  | Wavelength.IR => t.IR

def WTriple.set {β : Type} (t : WTriple β) : Wavelength → β → WTriple β
  | Wavelength.R, b => { t with R := b }
  | Wavelength.G, b => { t with G := b }
  | Wavelength.IR, b => { t with IR := b }

/-- `d.get(k)` / `k in d` on a Python dict modelled as an association list. -/
def lookupKey {κ β : Type} [DecidableEq κ] (m : List (κ × β)) (k : κ) : Option β :=
  (m.find? (fun p => p.1 = k)).map (fun p => p.2)

/-- Parsed sensor values: a Python dict from field label to integer. -/
abbrev PyDict := List (String × ℤ)

/-- Python dict insertion: an existing key keeps its position and gets the new
value, a new key is appended (insertion order). -/
def dictInsert (m : PyDict) (k : String) (v : ℤ) : PyDict :=
  if m.any (fun p => p.1 = k) then m.map (fun p => if p.1 = k then (k, v) else p)
  else m ++ [(k, v)]

/-- Process-wide settings: the string-keyed `settings` table. -/
abbrev Settings := List (String × String)

/-- The reified side effects of the engine (database writes, notifications,
hardware control, settings mutation, calibration-status logging). -/
inductive Event (α : Type) where
  | saveReading : ℤ → ℤ → PyDict → Event α
  | insertStatistics : ℤ → ℤ → WTriple (Option (NF α)) → WTriple (Option (NF α)) → Event α
  | deleteOldReadings : ℤ → Event α
  | saveAlert : ℤ → ℤ → String → String → PyDict → List (Wavelength × NF α) → Event α
  | sendEmail : String → String → List String → Event α
  | shutdownPowerSupply : ℤ → ℤ → Event α
  | updateSetting : String → String → Event α
  | logCalibrating : α → Event α
deriving DecidableEq

section Channel

variable {α : Type} [LinearOrderedField α]

/-- Per-channel state (`SmokeDetectorChannel.__init__`): sample buffers,
baselines, the shared settings snapshot, and the last recompute time.
The db path and logger handles are external resources and are not part of the
state; their writes appear in the event trace. -/
structure SmokeDetectorChannel (α : Type) where
  atlaspc : ℤ
  channel : ℤ
  settings : Settings
  saved_values : WTriple (List (NF α))
  means : WTriple (Option (NF α))
  sds : WTriple (Option (NF α))
  last_calculation_time : α
deriving DecidableEq

/-- `self.calculation_interval = 3 * 60`. -/
def calculation_interval : α := 3 * 60

/-- `SmokeDetectorChannel.add_reading`: append each present wavelength value,
and `np.nan` for each absent one. -/
def add_reading (ch : SmokeDetectorChannel α) (values : PyDict) : SmokeDetectorChannel α :=
  { ch with saved_values :=
      wavelengths.foldl (fun sv w =>
        match lookupKey values w.key with
        | some v => sv.set w (sv.get w ++ [NF.val (v : α)])
        | none => sv.set w (sv.get w ++ [NF.nan])) ch.saved_values }

/-- The non-NaN entries of a buffer, in order (what `np.nanmean`/`np.nanstd`
average over). -/
def nonMissing (l : List (NF α)) : List α :=
  l.filterMap (fun x => match x with | NF.nan => none | NF.val a => some a)

/-- `np.nanmean`: the arithmetic mean of the non-NaN entries; NaN when there
are none (numpy emits a warning and returns NaN on an all-NaN slice). -/
def nanmean (l : List (NF α)) : NF α :=
  let vs := nonMissing l
  if vs.length = 0 then NF.nan else NF.val (vs.sum / (vs.length : α))

/-- `np.nanstd` (default `ddof=0`): the square root of the mean of squared
deviations of the non-NaN entries; NaN when there are none.  `sqrt` is the
square-root function of the instantiating field. -/
def nanstd (sqrt : α → α) (l : List (NF α)) : NF α :=
  let vs := nonMissing l
  if vs.length = 0 then NF.nan
  else
    let μ := vs.sum / (vs.length : α)
    NF.val (sqrt ((vs.map (fun x => (x - μ) ^ 2)).sum / (vs.length : α)))

/-- One iteration of the `for light_type in self.saved_values.keys()` loop of
`calculate_statistics`: if the buffer is non-empty, overwrite the baseline
with `nanmean`/`nanstd` and clear the buffer. -/
def statStep (sqrt : α → α) (st : SmokeDetectorChannel α) (w : Wavelength) :
    SmokeDetectorChannel α :=
  if 0 < (st.saved_values.get w).length then
    { st with
      means := st.means.set w (some (nanmean (st.saved_values.get w))),
      sds := st.sds.set w (some (nanstd sqrt (st.saved_values.get w))),
      saved_values := st.saved_values.set w [] }
  else st

/-- `SmokeDetectorChannel.calculate_statistics`: per wavelength, if the buffer
is non-empty, overwrite the baseline with `nanmean`/`nanstd` and clear the
buffer; then insert a statistics row and advance `last_calculation_time`. -/
def calculate_statistics (sqrt : α → α) (now : α) (ch : SmokeDetectorChannel α) :
    SmokeDetectorChannel α × List (Event α) :=
  let st := wavelengths.foldl (statStep sqrt) ch
  ({ st with last_calculation_time := now },
   [Event.insertStatistics st.atlaspc st.channel st.means st.sds])

/-- `SmokeDetectorChannel.is_calibrated`: no `None` among the means and
standard deviations. -/
def is_calibrated (ch : SmokeDetectorChannel α) : Bool :=
  wavelengths.all (fun w => (ch.means.get w).isSome) &&
  wavelengths.all (fun w => (ch.sds.get w).isSome)

/-- `SmokeDetectorChannel.should_calculate_statistics`. -/
def should_calculate_statistics (now : α) (ch : SmokeDetectorChannel α) : Bool :=
  decide (calculation_interval ≤ now - ch.last_calculation_time)

/-- `SmokeDetectorChannel.get_remaining_calibration_time`. -/
def get_remaining_calibration_time (now : α) (ch : SmokeDetectorChannel α) : α :=
  calculation_interval - (now - ch.last_calculation_time)

/-- `SmokeDetectorChannel.calculate_z_scores`: for each wavelength with a
present value, a set mean, a set standard deviation, and a standard deviation
different from `0`, record `(value - mean) / sd`. -/
def calculate_z_scores (ch : SmokeDetectorChannel α) (values : PyDict) :
    List (Wavelength × NF α) :=
  wavelengths.foldl (fun zs w =>
    match lookupKey values w.key, ch.means.get w, ch.sds.get w with
    | some v, some m, some s =>
        if s ≠ NF.val 0 then zs ++ [(w, ((NF.val (v : α)).sub m).div s)] else zs
    | _, _, _ => zs) []

/-- The recipient list computed in `send_email`. -/
def recipientsOf (settings : Settings) : List String :=
  ((((lookupKey settings "email_recipients").getD "").splitOn ",").map
    (fun r => r.trim)).filter (fun r => r ≠ "")

/-- `SmokeDetectorChannel.send_email`: nothing is sent unless
`email_enabled == 'true'`; the message body (which interpolates formatted
z-scores) is elided, the subject, priority and recipients are kept. -/
def send_email (settings : Settings) (subject priority : String) : List (Event α) :=
  if lookupKey settings "email_enabled" = some "true" then
    [Event.sendEmail subject priority (recipientsOf settings)]
  else []

/-- `SmokeDetectorChannel.check_alerts`: the alert evaluator.  Returns the
trace of side effects in program order. -/
def check_alerts (ch : SmokeDetectorChannel α) (values : PyDict) : List (Event α) :=
  if is_calibrated ch = false then []
  else
    let z_scores := calculate_z_scores ch values
    let conditions : List (Wavelength × Bool) :=
      wavelengths.foldl (fun cs w =>
        match lookupKey z_scores w with
        | some z => cs ++ [(w, z.absGt 5)]
        | none => cs) []
    let warningEvents : List (Event α) :=
      if conditions.any (fun c => c.2) then
        [Event.saveAlert ch.atlaspc ch.channel "WARNING"
          ("Concerning smoke levels detected on atlaspc" ++ toString ch.atlaspc)
          values z_scores] ++
        send_email ch.settings ("SMOKE LEVEL WARNING - atlaspc" ++ toString ch.atlaspc) "2"
      else []
    let criticalEvents : List (Event α) :=
      if wavelengths.all (fun w => (lookupKey conditions w).getD false) then
        [Event.saveAlert ch.atlaspc ch.channel "CRITICAL"
          ("DANGEROUS smoke levels on atlaspc" ++ toString ch.atlaspc ++ " - Burn-in stopped!")
          values z_scores] ++
        send_email ch.settings
          ("BURN-IN STOPPED - CRITICAL ALERT - ATLASPC" ++ toString ch.atlaspc) "1" ++
        (if lookupKey ch.settings "auto_shutdown_enabled" = some "true" then
          [Event.shutdownPowerSupply ch.atlaspc ch.channel]
         else [])
      else []
    warningEvents ++ criticalEvents

end Channel

section Monitor

variable {α : Type} [LinearOrderedField α]

/-- `self.atlaspc_channel_map`: the static channel-to-unit table. -/
def atlaspc_channel_map : List (ℤ × ℤ) := [(1, 20), (2, 21), (3, 22)]

/-- Monitor state: the lazily created channels and the settings snapshot. -/
structure SmokeDetectorMonitor (α : Type) where
  channels : List (ℤ × SmokeDetectorChannel α)
  settings : Settings
deriving DecidableEq

/-- `SmokeDetectorMonitor.get_or_create_channel`: look up by channel number,
creating fresh uncalibrated state on first sight. -/
def get_or_create_channel (now : α) (m : SmokeDetectorMonitor α) (atlaspc channel_number : ℤ) :
    SmokeDetectorMonitor α × SmokeDetectorChannel α :=
  match lookupKey m.channels channel_number with
  | some ch => (m, ch)
  | none =>
      let ch : SmokeDetectorChannel α :=
        { atlaspc := atlaspc, channel := channel_number, settings := m.settings,
          saved_values := ⟨[], [], []⟩, means := ⟨none, none, none⟩,
          sds := ⟨none, none, none⟩, last_calculation_time := now }
      ({ m with channels := m.channels ++ [(channel_number, ch)] }, ch)

/-- One dispatch of a parsed reading, following the body of
`SmokeDetectorMonitor.run` (lines 452-490): refresh each channel's settings
snapshot, resolve the channel tag (raising on an unmapped tag), record the
reading, recompute statistics when due (with the retention sweep), and either
evaluate alerts or log the remaining calibration time.  `now` stands for the
`time.time()` calls of the tick. -/
def process_reading (sqrt : α → α) (now : α) (m : SmokeDetectorMonitor α)
    (values : PyDict) : Except String (SmokeDetectorMonitor α × List (Event α)) :=
  let m : SmokeDetectorMonitor α :=
    { m with channels := m.channels.map (fun p => (p.1, { p.2 with settings := m.settings })) }
  if 0 < values.length then
    match lookupKey values "CH" with
    | none => Except.ok (m, [])
    | some channel_number =>
      match lookupKey atlaspc_channel_map channel_number with
      | none =>
          Except.error ("Channel " ++ toString channel_number ++ " is not mapped in an atlaspc.")
      | some atlaspc =>
          let mc := get_or_create_channel now m atlaspc channel_number
          let m := mc.1
          let ev0 : List (Event α) := [Event.saveReading atlaspc channel_number values]
          let ch := add_reading mc.2 values
          let chev :=
            if should_calculate_statistics now ch then
              let r := calculate_statistics sqrt now ch
              (r.1, r.2 ++ [Event.deleteOldReadings 30])
            else (ch, ([] : List (Event α)))
          let ch := chev.1
          let ev2 : List (Event α) :=
            if is_calibrated ch then check_alerts ch values
            else [Event.logCalibrating (get_remaining_calibration_time now ch)]
          Except.ok
            ({ m with channels :=
                m.channels.map (fun p => if p.1 = channel_number then (p.1, ch) else p) },
             ev0 ++ chev.2 ++ ev2)
  else Except.ok (m, [])

end Monitor

section Parser

/-- Python `str.split(sep)` for a single-character separator: splitting never
yields an empty list, and consecutive separators yield empty pieces. -/
def splitOnChar (sep : Char) : List Char → List (List Char)
  | [] => [[]]
  | c :: rest =>
    let r := splitOnChar sep rest
    if c = sep then [] :: r
    else
      match r with
      | [] => [[c]]
      | h :: t => (c :: h) :: t

/-- Python `str.strip()` (whitespace on both ends). -/
def trimChars (cs : List Char) : List Char :=
  ((cs.dropWhile Char.isWhitespace).reverse.dropWhile Char.isWhitespace).reverse

/-- Does `hay` start with `pat`? -/
def startsWithChars : List Char → List Char → Bool
  | _, [] => true
  | [], _ :: _ => false
  | a :: as, b :: bs => a = b && startsWithChars as bs

/-- Python `pat in hay` (substring containment). -/
def pyContains (hay pat : List Char) : Bool :=
  match hay with
  | [] => startsWithChars [] pat
  | c :: t => startsWithChars (c :: t) pat || pyContains t pat

/-- The digit/underscore shape that CPython `int()` accepts after the first
digit: underscores must be single and followed by a digit. -/
def digitRun : List Char → Bool
  | [] => true
  | c :: rest =>
    if c = '_' then
      match rest with
      | [] => false
      | d :: rest2 => d.isDigit && digitRun (d :: rest2)
    else c.isDigit && digitRun rest

/-- Numeric value of a list of decimal digits. -/
def digitsToNat (cs : List Char) : ℕ :=
  cs.foldl (fun acc c => 10 * acc + (c.toNat - 48)) 0

/-- The unsigned part of CPython `int()`: a nonempty digit run, with single
underscores allowed between digits. -/
def pyNat (cs : List Char) : Option ℕ :=
  match cs with
  | [] => none
  | c :: _ =>
    if c.isDigit && digitRun cs then some (digitsToNat (cs.filter (fun d => d ≠ '_')))
    else none

/-- CPython `int(s)` on ASCII input: surrounding whitespace, an optional sign,
then digits.  A failure (`ValueError`) is `none`. -/
def pyInt (cs : List Char) : Option ℤ :=
  match trimChars cs with
  | '+' :: rest => (pyNat rest).map (fun n => Int.ofNat n)
  | '-' :: rest => (pyNat rest).map (fun n => -Int.ofNat n)
  | t => (pyNat t).map (fun n => Int.ofNat n)

/-- `SmokeDetectorMonitor.parse_line`: split on the semicolon, strip each part,
require at least 5 parts with CH in the first and all four labels somewhere in the
line, then unpack each of the first four parts as `label:value` with an
integer value.  Any failure (including the raised `ValueError`) is caught and
yields the empty dict. -/
def parse_line (line : String) : PyDict :=
  let parts := (splitOnChar ';' line.data).map trimChars
  if parts.length < 5 || !pyContains (parts.getD 0 []) ['C', 'H'] then []
  else if !(pyContains line.data ['C', 'H'] && pyContains line.data ['R'] &&
            pyContains line.data ['G'] && pyContains line.data ['I', 'R']) then []
  else
    match splitOnChar ':' (parts.getD 0 []), splitOnChar ':' (parts.getD 1 []),
          splitOnChar ':' (parts.getD 2 []), splitOnChar ':' (parts.getD 3 []) with
    | [ch_label, ch_value], [R_label, R_value], [IR_label, IR_value], [G_label, G_value] =>
      match pyInt ch_value, pyInt R_value, pyInt IR_value, pyInt G_value with
      | some chn, some rn, some irn, some gn =>
        dictInsert (dictInsert (dictInsert (dictInsert []
          (String.mk ch_label) chn) (String.mk R_label) rn)
          (String.mk IR_label) irn) (String.mk G_label) gn
      | _, _, _, _ => []
    | _, _, _, _ => []

end Parser

section Helpers

variable {α : Type} [LinearOrderedField α]

/-- The z-score `calculate_z_scores` produces for one wavelength, when it
produces one: defined exactly when the value is present, the mean and the
standard deviation are set, and the standard deviation differs from `0`. -/
def zOpt (ch : SmokeDetectorChannel α) (values : PyDict) (w : Wavelength) : Option (NF α) :=
  match lookupKey values w.key, ch.means.get w, ch.sds.get w with
  | some v, some m, some s =>
      if s ≠ NF.val 0 then some (((NF.val (v : α)).sub m).div s) else none
  | _, _, _ => none

/-- Whether one wavelength triggers (`abs(z) > 5`); an unscored wavelength
never triggers (the `conditions.get(key, False)` default). -/
def trigger (ch : SmokeDetectorChannel α) (values : PyDict) (w : Wavelength) : Bool :=
  ((zOpt ch values w).map (fun z => z.absGt 5)).getD false

/-- `any(conditions.values())`: at least one scored wavelength triggers. -/
def anyTrigger (ch : SmokeDetectorChannel α) (values : PyDict) : Bool :=
  wavelengths.any (trigger ch values)

/-- `all(conditions.get(key, False) for key in ...)`: all three wavelengths
are scored and all three trigger. -/
def allTrigger (ch : SmokeDetectorChannel α) (values : PyDict) : Bool :=
  wavelengths.all (trigger ch values)

/-- The side effects of the WARNING branch of `check_alerts`. -/
def warningBlock (ch : SmokeDetectorChannel α) (values : PyDict) : List (Event α) :=
  [Event.saveAlert ch.atlaspc ch.channel "WARNING"
    ("Concerning smoke levels detected on atlaspc" ++ toString ch.atlaspc)
    values (calculate_z_scores ch values)] ++
  send_email ch.settings ("SMOKE LEVEL WARNING - atlaspc" ++ toString ch.atlaspc) "2"

/-- The side effects of the CRITICAL branch of `check_alerts`. -/
def criticalBlock (ch : SmokeDetectorChannel α) (values : PyDict) : List (Event α) :=
  [Event.saveAlert ch.atlaspc ch.channel "CRITICAL"
    ("DANGEROUS smoke levels on atlaspc" ++ toString ch.atlaspc ++ " - Burn-in stopped!")
    values (calculate_z_scores ch values)] ++
  send_email ch.settings
    ("BURN-IN STOPPED - CRITICAL ALERT - ATLASPC" ++ toString ch.atlaspc) "1" ++
  (if lookupKey ch.settings "auto_shutdown_enabled" = some "true" then
    [Event.shutdownPowerSupply ch.atlaspc ch.channel]
   else [])

/-- Does the trace record a persisted alert of the given severity? -/
def containsAlert (tr : List (Event α)) (sev : String) : Bool :=
  tr.any (fun e => match e with
    | Event.saveAlert _ _ t _ _ _ => t = sev
    | _ => false)

/-- Does the trace mutate any setting?  (`check_alerts` never does; the
`run()` loop does, at startup and shutdown.) -/
def mutatesSettings (tr : List (Event α)) : Bool :=
  tr.any (fun e => match e with
    | Event.updateSetting _ _ => true
    | _ => false)

/-- Is the event an alert persistence or a notification send? -/
def isAlertEffect (e : Event α) : Bool :=
  match e with
  | Event.saveAlert _ _ _ _ _ _ => true
  | Event.sendEmail _ _ _ => true
  | _ => false

end Helpers

section SpecSide

variable {α : Type} [LinearOrderedField α]

/-- Spec-side definition (§8): the arithmetic mean of a sample list. -/
def specMean (vs : List α) : α := vs.sum / (vs.length : α)

/-- Spec-side definition (§8): the population variance via the second-moment
formula, a genuinely different expression from the mean-of-squared-deviations
computation of `nanstd`. -/
def specPopVar (vs : List α) : α :=
  (vs.map (fun x => x ^ 2)).sum / (vs.length : α) - (vs.sum / (vs.length : α)) ^ 2

end SpecSide

section Examples

/-- The ten decimal digit characters. -/
def digitChars : List Char := ['0', '1', '2', '3', '4', '5', '6', '7', '8', '9']

/-- A settings snapshot with e-mail and auto-shutdown enabled. -/
def exSettings : Settings :=
  [("email_enabled", "true"), ("auto_shutdown_enabled", "true"),
   ("email_recipients", "a@b.c"), ("monitoring_active", "true")]

/-- A calibrated channel (baseline mean 0, standard deviation 1 on all three
wavelengths) used by the concrete witnesses. -/
def exCh : SmokeDetectorChannel ℚ :=
  { atlaspc := 20, channel := 1, settings := exSettings,
    saved_values := ⟨[], [], []⟩,
    means := ⟨some (NF.val 0), some (NF.val 0), some (NF.val 0)⟩,
    sds := ⟨some (NF.val 1), some (NF.val 1), some (NF.val 1)⟩,
    last_calculation_time := 0 }

/-- A reading 10 standard deviations from the baseline on all wavelengths. -/
def exAll : PyDict := [("CH", 1), ("R", 10), ("IR", 10), ("G", 10)]

/-- A channel whose R buffer is non-empty but all-NaN, with a previously set
R baseline: the recompute overwrites that baseline with NaN. -/
def exNanBuf : SmokeDetectorChannel ℚ :=
  { exCh with saved_values := ⟨[NF.nan, NF.nan], [], []⟩ }

/-- A monitor with no channels yet. -/
def exMon : SmokeDetectorMonitor ℚ := { channels := [], settings := exSettings }

/-- The channel state produced by dispatching `exAll` to a fresh `exMon` at
time 0: one sample in each buffer, still uncalibrated. -/
def exDispatched : SmokeDetectorChannel ℚ :=
  { atlaspc := 20, channel := 1, settings := exSettings,
    saved_values := ⟨[NF.val 10], [NF.val 10], [NF.val 10]⟩,
    means := ⟨none, none, none⟩, sds := ⟨none, none, none⟩,
    last_calculation_time := 0 }

/-- A real-valued channel whose R buffer holds 1, NaN, 3: used to witness the
recompute statistics. -/
def exChR : SmokeDetectorChannel ℝ :=
  { atlaspc := 20, channel := 1, settings := exSettings,
    saved_values := ⟨[NF.val 1, NF.nan, NF.val 3], [], []⟩,
    means := ⟨none, none, none⟩, sds := ⟨none, none, none⟩,
    last_calculation_time := 0 }

end Examples

section BasicLemmas

theorem WTriple.get_set_self {β : Type} (t : WTriple β) (w : Wavelength) (b : β) :
    (t.set w b).get w = b := by
  cases w <;> rfl

theorem WTriple.get_set_ne {β : Type} (t : WTriple β) (w x : Wavelength) (b : β)
    (h : w ≠ x) : (t.set x b).get w = t.get w := by
  cases w <;> cases x <;> first | rfl | exact absurd rfl h

theorem mem_wavelengths (w : Wavelength) : w ∈ wavelengths := by
  cases w <;> simp [wavelengths]

/-- A fold that optionally appends a keyed entry per wavelength builds the
corresponding `filterMap`. -/
theorem foldl_optAppend {β : Type} (f : Wavelength → Option β) :
    ∀ (l : List Wavelength) (init : List (Wavelength × β)),
      l.foldl (fun acc w => acc ++ ((f w).map (fun b => (w, b))).toList) init
      = init ++ l.filterMap (fun w => (f w).map (fun b => (w, b))) := by
  intro l
  induction l with
  | nil => intro init; simp
  | cons w l ih =>
      intro init
      rcases h : f w with _ | b <;>
        simp [List.foldl_cons, List.filterMap_cons, h, ih]

/-- Looking up a wavelength in the keyed `filterMap` over all wavelengths
recovers the optional entry for that wavelength. -/
theorem lookup_wfilterMap {β : Type} (f : Wavelength → Option β) (w : Wavelength) :
    lookupKey (wavelengths.filterMap (fun x => (f x).map (fun b => (x, b)))) w = f w := by
  cases w <;>
    rcases hR : f Wavelength.R with _ | bR <;>
    rcases hG : f Wavelength.G with _ | bG <;>
    rcases hIR : f Wavelength.IR with _ | bIR <;>
      simp [wavelengths, lookupKey, List.filterMap_cons, hR, hG, hIR, List.find?]

theorem any_wfilterMap (f : Wavelength → Option Bool) :
    ∀ l : List Wavelength,
      (l.filterMap (fun w => (f w).map (fun b => (w, b)))).any (fun c => c.2)
        = l.any (fun w => (f w).getD false) := by
  intro l
  induction l with
  | nil => simp
  | cons w l ih =>
      rcases h : f w with _ | b <;> simp [List.filterMap_cons, h, ih]

end BasicLemmas

section AlertLemmas

variable {α : Type} [LinearOrderedField α]

theorem calculate_z_scores_eq (ch : SmokeDetectorChannel α) (values : PyDict) :
    calculate_z_scores ch values
      = wavelengths.filterMap (fun w => (zOpt ch values w).map (fun b => (w, b))) := by
  have hstep : (fun (zs : List (Wavelength × NF α)) (w : Wavelength) =>
      match lookupKey values w.key, ch.means.get w, ch.sds.get w with
      | some v, some m, some s =>
          if s ≠ NF.val 0 then zs ++ [(w, ((NF.val (v : α)).sub m).div s)] else zs
      | _, _, _ => zs)
      = (fun zs w => zs ++ ((zOpt ch values w).map (fun b => (w, b))).toList) := by
    funext zs w
    unfold zOpt
    rcases lookupKey values w.key with _ | v <;>
      rcases ch.means.get w with _ | m <;>
      rcases ch.sds.get w with _ | s <;>
        simp <;> split <;> simp
  unfold calculate_z_scores
  rw [hstep]
  simpa using foldl_optAppend (fun w => zOpt ch values w) wavelengths []

theorem lookup_zscores (ch : SmokeDetectorChannel α) (values : PyDict) (w : Wavelength) :
    lookupKey (calculate_z_scores ch values) w = zOpt ch values w := by
  rw [calculate_z_scores_eq, lookup_wfilterMap]

/-- The structured form of `check_alerts`: nothing on an uncalibrated
channel, then the WARNING block iff any scored wavelength triggers, then the
CRITICAL block iff all three are scored and trigger. -/
theorem check_alerts_eq (ch : SmokeDetectorChannel α) (values : PyDict) :
    check_alerts ch values
      = if is_calibrated ch = false then []
        else (if anyTrigger ch values then warningBlock ch values else []) ++
             (if allTrigger ch values then criticalBlock ch values else []) := by
  by_cases hcal : is_calibrated ch = false
  · simp [check_alerts, hcal]
  · have hcond : (fun (cs : List (Wavelength × Bool)) (w : Wavelength) =>
        match lookupKey (calculate_z_scores ch values) w with
        | some z => cs ++ [(w, z.absGt 5)]
        | none => cs)
        = (fun cs w =>
          cs ++ (((zOpt ch values w).map (fun z => z.absGt 5)).map (fun b => (w, b))).toList) := by
      funext cs w
      rw [lookup_zscores]
      rcases zOpt ch values w with _ | z <;> simp
    have hconds : wavelengths.foldl (fun (cs : List (Wavelength × Bool)) (w : Wavelength) =>
        match lookupKey (calculate_z_scores ch values) w with
        | some z => cs ++ [(w, z.absGt 5)]
        | none => cs) []
        = wavelengths.filterMap
            (fun w => ((zOpt ch values w).map (fun z => z.absGt 5)).map (fun b => (w, b))) := by
      rw [hcond]
      simpa using
        foldl_optAppend (fun w => (zOpt ch values w).map (fun z => z.absGt 5)) wavelengths []
    have hany : (wavelengths.filterMap
          (fun w => ((zOpt ch values w).map (fun z => z.absGt 5)).map (fun b => (w, b)))).any
            (fun c => c.2)
        = anyTrigger ch values := by
      rw [any_wfilterMap]
      rfl
    have hall : wavelengths.all (fun w =>
        (lookupKey (wavelengths.filterMap
          (fun x => ((zOpt ch values x).map (fun z => z.absGt 5)).map (fun b => (x, b)))) w).getD
            false)
        = allTrigger ch values := by
      have h2 : (fun w => (lookupKey (wavelengths.filterMap
          (fun x => ((zOpt ch values x).map (fun z => z.absGt 5)).map (fun b => (x, b)))) w).getD
            false) = trigger ch values := by
        funext w
        rw [lookup_wfilterMap]
        rfl
      rw [h2]
      rfl
  -- assemble
    simp only [check_alerts, hcal, if_false, hconds, hany, hall]
    rfl

end AlertLemmas

section AlertBridges

variable {α : Type} [LinearOrderedField α]

theorem trigger_iff (ch : SmokeDetectorChannel α) (values : PyDict) (w : Wavelength) :
    trigger ch values w = true ↔
      ∃ z, zOpt ch values w = some z ∧ z.absGt 5 = true := by
  unfold trigger
  rcases h : zOpt ch values w with _ | z <;> simp [h]

theorem anyTrigger_iff (ch : SmokeDetectorChannel α) (values : PyDict) :
    anyTrigger ch values = true ↔
      ∃ w z, lookupKey (calculate_z_scores ch values) w = some z ∧ z.absGt 5 = true := by
  unfold anyTrigger
  simp only [List.any_eq_true]
  constructor
  · rintro ⟨w, _, hw⟩
    rcases (trigger_iff ch values w).1 hw with ⟨z, hz, habs⟩
    exact ⟨w, z, by rw [lookup_zscores]; exact hz, habs⟩
  · rintro ⟨w, z, hz, habs⟩
    rw [lookup_zscores] at hz
    exact ⟨w, mem_wavelengths w, (trigger_iff ch values w).2 ⟨z, hz, habs⟩⟩

theorem allTrigger_iff (ch : SmokeDetectorChannel α) (values : PyDict) :
    allTrigger ch values = true ↔
      ∀ w, ∃ z, lookupKey (calculate_z_scores ch values) w = some z ∧ z.absGt 5 = true := by
  unfold allTrigger
  simp only [List.all_eq_true]
  constructor
  · intro h w
    rcases (trigger_iff ch values w).1 (h w (mem_wavelengths w)) with ⟨z, hz, habs⟩
    exact ⟨z, by rw [lookup_zscores]; exact hz, habs⟩
  · intro h w _
    rcases h w with ⟨z, hz, habs⟩
    rw [lookup_zscores] at hz
    exact (trigger_iff ch values w).2 ⟨z, hz, habs⟩

theorem allTrigger_imp_anyTrigger (ch : SmokeDetectorChannel α) (values : PyDict)
    (h : allTrigger ch values = true) : anyTrigger ch values = true := by
  unfold allTrigger at h
  unfold anyTrigger
  simp only [List.all_eq_true] at h
  simp only [List.any_eq_true]
  exact ⟨Wavelength.R, mem_wavelengths _, h _ (mem_wavelengths _)⟩

theorem containsAlert_nil {α : Type} [LinearOrderedField α] (sev : String) :
    containsAlert ([] : List (Event α)) sev = false := rfl

theorem containsAlert_append {α : Type} [LinearOrderedField α]
    (l1 l2 : List (Event α)) (sev : String) :
    containsAlert (l1 ++ l2) sev = (containsAlert l1 sev || containsAlert l2 sev) := by
  unfold containsAlert
  exact List.any_append

theorem containsAlert_warning_self (ch : SmokeDetectorChannel α) (values : PyDict) :
    containsAlert (warningBlock ch values) "WARNING" = true := by
  simp [warningBlock, containsAlert]

theorem containsAlert_warning_other (ch : SmokeDetectorChannel α) (values : PyDict) :
    containsAlert (warningBlock ch values) "CRITICAL" = false := by
  unfold warningBlock containsAlert send_email
  split <;> simp

theorem containsAlert_critical_self (ch : SmokeDetectorChannel α) (values : PyDict) :
    containsAlert (criticalBlock ch values) "CRITICAL" = true := by
  simp [criticalBlock, containsAlert]

theorem containsAlert_critical_other (ch : SmokeDetectorChannel α) (values : PyDict) :
    containsAlert (criticalBlock ch values) "WARNING" = false := by
  unfold criticalBlock containsAlert send_email
  split <;> split <;> simp

theorem mutatesSettings_warningBlock (ch : SmokeDetectorChannel α) (values : PyDict) :
    mutatesSettings (warningBlock ch values) = false := by
  unfold warningBlock mutatesSettings send_email
  split <;> simp

theorem mutatesSettings_criticalBlock (ch : SmokeDetectorChannel α) (values : PyDict) :
    mutatesSettings (criticalBlock ch values) = false := by
  unfold criticalBlock mutatesSettings send_email
  split <;> split <;> simp

theorem shutdown_mem_criticalBlock (ch : SmokeDetectorChannel α) (values : PyDict) :
    Event.shutdownPowerSupply ch.atlaspc ch.channel ∈ criticalBlock ch values ↔
      lookupKey ch.settings "auto_shutdown_enabled" = some "true" := by
  unfold criticalBlock send_email
  split <;> split <;> simp_all

theorem shutdown_not_mem_warningBlock (ch : SmokeDetectorChannel α) (values : PyDict)
    (a c : ℤ) : Event.shutdownPowerSupply a c ∉ warningBlock ch values := by
  unfold warningBlock send_email
  split <;> simp

end AlertBridges

section ExampleEval

theorem exCh_calibrated : is_calibrated exCh = true := by decide

theorem exAll_CH : lookupKey exAll "CH" = some 1 := by decide

theorem exAll_R : lookupKey exAll "R" = some 10 := by decide

theorem exAll_G : lookupKey exAll "G" = some 10 := by decide

theorem exAll_IR : lookupKey exAll "IR" = some 10 := by decide

theorem exSettings_email : lookupKey exSettings "email_enabled" = some "true" := by decide

theorem exSettings_auto : lookupKey exSettings "auto_shutdown_enabled" = some "true" := by
  decide

theorem exCh_zOpt (w : Wavelength) : zOpt exCh exAll w = some (NF.val 10) := by
  cases w <;>
    · simp only [zOpt, Wavelength.key, exAll_R, exAll_G, exAll_IR]
      norm_num [exCh, WTriple.get, NF.sub, NF.div]

theorem exCh_trigger (w : Wavelength) : trigger exCh exAll w = true := by
  simp only [trigger, exCh_zOpt, NF.absGt, Option.map_some, Option.getD_some]
  norm_num

theorem exCh_anyTrigger : anyTrigger exCh exAll = true := by
  simp [anyTrigger, wavelengths, exCh_trigger]

theorem exCh_allTrigger : allTrigger exCh exAll = true := by
  simp [allTrigger, wavelengths, exCh_trigger]

theorem exCh_zscores : calculate_z_scores exCh exAll =
    [(Wavelength.R, NF.val 10), (Wavelength.G, NF.val 10), (Wavelength.IR, NF.val 10)] := by
  rw [calculate_z_scores_eq]
  simp [wavelengths, exCh_zOpt]

theorem exCh_trace : check_alerts exCh exAll =
    [Event.saveAlert 20 1 "WARNING"
       ("Concerning smoke levels detected on atlaspc" ++ toString (20 : ℤ)) exAll
       [(Wavelength.R, NF.val 10), (Wavelength.G, NF.val 10), (Wavelength.IR, NF.val 10)],
     Event.sendEmail ("SMOKE LEVEL WARNING - atlaspc" ++ toString (20 : ℤ)) "2"
       (recipientsOf exSettings),
     Event.saveAlert 20 1 "CRITICAL"
       ("DANGEROUS smoke levels on atlaspc" ++ toString (20 : ℤ) ++ " - Burn-in stopped!") exAll
       [(Wavelength.R, NF.val 10), (Wavelength.G, NF.val 10), (Wavelength.IR, NF.val 10)],
     Event.sendEmail ("BURN-IN STOPPED - CRITICAL ALERT - ATLASPC" ++ toString (20 : ℤ)) "1"
       (recipientsOf exSettings),
     Event.shutdownPowerSupply 20 1] := by
  rw [check_alerts_eq]
  rw [exCh_anyTrigger, exCh_allTrigger]
  have hset : exCh.settings = exSettings := rfl
  have hpc : exCh.atlaspc = (20 : ℤ) := rfl
  have hch : exCh.channel = (1 : ℤ) := rfl
  simp only [exCh_calibrated, warningBlock, criticalBlock, exCh_zscores, send_email, hset,
    hpc, hch, exSettings_email, exSettings_auto, if_true]
  simp

end ExampleEval

section ClaimAlerts

/-- C1 (amended): on a calibrated channel, `check_alerts` invokes the
power-supply shutdown hook for the channel exactly when the CRITICAL
condition holds (all three wavelengths scored with `abs(z) > 5`) and the
`auto_shutdown_enabled` setting is the string `true`; and `check_alerts`
never mutates any setting — in particular it never sets
`monitoring_active=false`. -/
theorem C1_critical_shutdown {α : Type} [LinearOrderedField α]
    (ch : SmokeDetectorChannel α) (values : PyDict) :
    mutatesSettings (check_alerts ch values) = false ∧
    (is_calibrated ch = true →
      (Event.shutdownPowerSupply ch.atlaspc ch.channel ∈ check_alerts ch values ↔
        (∀ w, ∃ z, lookupKey (calculate_z_scores ch values) w = some z ∧ z.absGt 5 = true) ∧
        lookupKey ch.settings "auto_shutdown_enabled" = some "true")) := by
  rw [check_alerts_eq]
  by_cases hcal : is_calibrated ch = false
  · simp [hcal, mutatesSettings]
  · constructor
    · rw [if_neg hcal]
      unfold mutatesSettings
      rw [List.any_append]
      have h1 : (if anyTrigger ch values then warningBlock ch values else []).any
          (fun e => match e with
            | Event.updateSetting _ _ => true
            | _ => false) = false := by
        split
        · exact mutatesSettings_warningBlock ch values
        · rfl
      have h2 : (if allTrigger ch values then criticalBlock ch values else []).any
          (fun e => match e with
            | Event.updateSetting _ _ => true
            | _ => false) = false := by
        split
        · exact mutatesSettings_criticalBlock ch values
        · rfl
      rw [h1, h2]
      rfl
    · intro _
      rw [if_neg hcal]
      rw [List.mem_append]
      have h1 : Event.shutdownPowerSupply ch.atlaspc ch.channel ∉
          (if anyTrigger ch values then warningBlock ch values else []) := by
        split
        · exact shutdown_not_mem_warningBlock ch values _ _
        · simp
      constructor
      · rintro (h | h)
        · exact absurd h h1
        · rcases hall : allTrigger ch values with _ | _
          · rw [hall] at h
            simp at h
          · rw [hall] at h
            simp only [if_true] at h
            exact ⟨(allTrigger_iff ch values).1 hall,
              (shutdown_mem_criticalBlock ch values).1 h⟩
      · rintro ⟨hall, hauto⟩
        right
        rw [(allTrigger_iff ch values).2 hall]
        simp only [if_true]
        exact (shutdown_mem_criticalBlock ch values).2 hauto

/-- C1 counterexample to the claim as stated: a CRITICAL-triggering reading
on a calibrated channel with `auto_shutdown_enabled = true` invokes the
shutdown hook but performs no settings mutation at all (no
`monitoring_active=false`). -/
theorem C1_counterexample :
    containsAlert (check_alerts exCh exAll) "CRITICAL" = true ∧
    lookupKey exCh.settings "auto_shutdown_enabled" = some "true" ∧
    Event.shutdownPowerSupply exCh.atlaspc exCh.channel ∈ check_alerts exCh exAll ∧
    mutatesSettings (check_alerts exCh exAll) = false := by
  rw [exCh_trace]
  exact ⟨by decide, by decide, by decide, by decide⟩

/-- C1 witness: the amended statement applied to the concrete critical run. -/
theorem C1_witness :
    mutatesSettings (check_alerts exCh exAll) = false ∧
    (Event.shutdownPowerSupply exCh.atlaspc exCh.channel ∈ check_alerts exCh exAll ↔
      (∀ w, ∃ z, lookupKey (calculate_z_scores exCh exAll) w = some z ∧ z.absGt 5 = true) ∧
      lookupKey exCh.settings "auto_shutdown_enabled" = some "true") :=
  ⟨(C1_critical_shutdown exCh exAll).1,
   (C1_critical_shutdown exCh exAll).2 (by decide)⟩

/-- C2: on a calibrated channel a WARNING alert is recorded iff some scored
wavelength has `abs(z) > 5`, a CRITICAL alert is recorded iff every
wavelength is scored with `abs(z) > 5`, CRITICAL implies the WARNING record,
and both are recorded on the same tick when both conditions hold. -/
theorem C2_warning_critical {α : Type} [LinearOrderedField α]
    (ch : SmokeDetectorChannel α) (values : PyDict) (hcal : is_calibrated ch = true) :
    (containsAlert (check_alerts ch values) "WARNING" = true ↔
      ∃ w z, lookupKey (calculate_z_scores ch values) w = some z ∧ z.absGt 5 = true) ∧
    (containsAlert (check_alerts ch values) "CRITICAL" = true ↔
      ∀ w, ∃ z, lookupKey (calculate_z_scores ch values) w = some z ∧ z.absGt 5 = true) ∧
    (containsAlert (check_alerts ch values) "CRITICAL" = true →
      containsAlert (check_alerts ch values) "WARNING" = true) := by
  have hcal2 : ¬is_calibrated ch = false := by simp [hcal]
  have hW : containsAlert (check_alerts ch values) "WARNING" = anyTrigger ch values := by
    rw [check_alerts_eq, if_neg hcal2, containsAlert_append]
    rcases ha : anyTrigger ch values with _ | _
    · have hb : allTrigger ch values = false := by
        rcases hb : allTrigger ch values with _ | _
        · rfl
        · rw [allTrigger_imp_anyTrigger ch values hb] at ha
          exact ha
      rw [hb]
      simp [containsAlert_nil]
    · simp only [show (true = true) = True by simp, if_true]
      rw [containsAlert_warning_self]
      rfl
  have hC : containsAlert (check_alerts ch values) "CRITICAL" = allTrigger ch values := by
    rw [check_alerts_eq, if_neg hcal2, containsAlert_append]
    rcases hb : allTrigger ch values with _ | _
    · rcases ha : anyTrigger ch values with _ | _
      · simp [containsAlert_nil]
      · simp only [show (true = true) = True by simp, if_true,
          show (false = true) = False by simp, if_false]
        rw [containsAlert_warning_other, containsAlert_nil]
        rfl
    · rw [allTrigger_imp_anyTrigger ch values (by rw [hb])]
      simp only [show (true = true) = True by simp, if_true]
      rw [containsAlert_warning_other, containsAlert_critical_self]
      rfl
  refine ⟨?_, ?_, ?_⟩
  · rw [hW]
    exact anyTrigger_iff ch values
  · rw [hC]
    exact allTrigger_iff ch values
  · intro h
    rw [hC] at h
    rw [hW]
    exact allTrigger_imp_anyTrigger ch values h

/-- C2 witness: the severity characterisation at a concrete calibrated
channel and an all-triggering reading. -/
theorem C2_witness :
    (containsAlert (check_alerts exCh exAll) "WARNING" = true ↔
      ∃ w z, lookupKey (calculate_z_scores exCh exAll) w = some z ∧ z.absGt 5 = true) ∧
    (containsAlert (check_alerts exCh exAll) "CRITICAL" = true ↔
      ∀ w, ∃ z, lookupKey (calculate_z_scores exCh exAll) w = some z ∧ z.absGt 5 = true) ∧
    (containsAlert (check_alerts exCh exAll) "CRITICAL" = true →
      containsAlert (check_alerts exCh exAll) "WARNING" = true) :=
  C2_warning_critical exCh exAll (by decide)

/-- C6: `calculate_z_scores` scores a wavelength exactly when the value is
present and the baseline mean and standard deviation are set with a standard
deviation different from 0; in that case the score is
`(value - mean) / std`, and a zero standard deviation excludes the
wavelength from the scores. -/
theorem C6_zscore_guard {α : Type} [LinearOrderedField α]
    (ch : SmokeDetectorChannel α) (values : PyDict) (w : Wavelength) :
    ((lookupKey (calculate_z_scores ch values) w).isSome = true ↔
      (lookupKey values w.key).isSome = true ∧ (ch.means.get w).isSome = true ∧
      ∃ s, ch.sds.get w = some s ∧ s ≠ NF.val 0) ∧
    (∀ v m s, lookupKey values w.key = some v → ch.means.get w = some m →
      ch.sds.get w = some s → s ≠ NF.val 0 →
      lookupKey (calculate_z_scores ch values) w = some (((NF.val (v : α)).sub m).div s)) ∧
    (ch.sds.get w = some (NF.val 0) → lookupKey (calculate_z_scores ch values) w = none) := by
  rw [lookup_zscores]
  unfold zOpt
  rcases h1 : lookupKey values w.key with _ | v <;>
    rcases h2 : ch.means.get w with _ | m <;>
    rcases h3 : ch.sds.get w with _ | s <;>
      simp_all

/-- C6 witness: the guarded z-score at the concrete calibrated channel. -/
theorem C6_witness :
    lookupKey (calculate_z_scores exCh exAll) Wavelength.R =
      some (((NF.val ((10 : ℤ) : ℚ)).sub (NF.val 0)).div (NF.val 1)) :=
  (C6_zscore_guard exCh exAll Wavelength.R).2.1 10 (NF.val 0) (NF.val 1)
    (by decide) rfl rfl (by decide)

end ClaimAlerts

section ClaimOrdering

/-- C7: in every `check_alerts` trace, a notification send is preceded by the
persistence of the alert of the matching severity (priority 2 notifications
follow a WARNING save, priority 1 notifications follow a CRITICAL save), so a
notifier outage never loses the alert record. -/
theorem C7_persist_before_notify {α : Type} [LinearOrderedField α]
    (ch : SmokeDetectorChannel α) (values : PyDict) (j : ℕ)
    (subject priority : String) (recipients : List String)
    (hj : (check_alerts ch values)[j]? = some (Event.sendEmail subject priority recipients)) :
    ∃ i, i < j ∧ ∃ sev msg,
      (check_alerts ch values)[i]? =
        some (Event.saveAlert ch.atlaspc ch.channel sev msg values
          (calculate_z_scores ch values)) ∧
      ((priority = "2" ∧ sev = "WARNING") ∨ (priority = "1" ∧ sev = "CRITICAL")) := by
  rw [check_alerts_eq] at hj ⊢
  by_cases hcal : is_calibrated ch = false
  · rw [if_pos hcal] at hj
    simp at hj
  · rw [if_neg hcal] at hj ⊢
    unfold warningBlock criticalBlock send_email at hj ⊢
    by_cases hb : allTrigger ch values = true
    · -- WARNING and CRITICAL both fire
      have ha : anyTrigger ch values = true := allTrigger_imp_anyTrigger ch values hb
      simp only [if_pos ha, if_pos hb] at hj ⊢
      by_cases he : lookupKey ch.settings "email_enabled" = some "true" <;>
        by_cases hs : lookupKey ch.settings "auto_shutdown_enabled" = some "true"
      · simp only [if_pos he, if_pos hs, List.cons_append, List.nil_append,
          List.append_nil] at hj ⊢
        rcases j with _ | _ | _ | _ | _ | j
        · simp at hj
        · simp only [List.getElem?_cons_succ, List.getElem?_cons_zero] at hj
          rw [Option.some_inj] at hj
          rcases hj with ⟨h1, h2, h3⟩
          exact ⟨0, by omega, "WARNING",
            "Concerning smoke levels detected on atlaspc" ++ toString ch.atlaspc,
            by simp, Or.inl ⟨rfl, rfl⟩⟩
        · simp at hj
        · simp only [List.getElem?_cons_succ, List.getElem?_cons_zero] at hj
          rw [Option.some_inj] at hj
          rcases hj with ⟨h1, h2, h3⟩
          exact ⟨2, by omega, "CRITICAL",
            "DANGEROUS smoke levels on atlaspc" ++ toString ch.atlaspc ++ " - Burn-in stopped!",
            by simp, Or.inr ⟨rfl, rfl⟩⟩
        · simp at hj
        · simp at hj
      · simp only [if_pos he, if_neg hs, List.cons_append, List.nil_append,
          List.append_nil] at hj ⊢
        rcases j with _ | _ | _ | _ | j
        · simp at hj
        · simp only [List.getElem?_cons_succ, List.getElem?_cons_zero] at hj
          rw [Option.some_inj] at hj
          rcases hj with ⟨h1, h2, h3⟩
          exact ⟨0, by omega, "WARNING",
            "Concerning smoke levels detected on atlaspc" ++ toString ch.atlaspc,
            by simp, Or.inl ⟨rfl, rfl⟩⟩
        · simp at hj
        · simp only [List.getElem?_cons_succ, List.getElem?_cons_zero] at hj
          rw [Option.some_inj] at hj
          rcases hj with ⟨h1, h2, h3⟩
          exact ⟨2, by omega, "CRITICAL",
            "DANGEROUS smoke levels on atlaspc" ++ toString ch.atlaspc ++ " - Burn-in stopped!",
            by simp, Or.inr ⟨rfl, rfl⟩⟩
        · simp at hj
      · simp only [if_neg he, if_pos hs, List.cons_append, List.nil_append,
          List.append_nil] at hj ⊢
        rcases j with _ | _ | _ | j <;> simp at hj
      · simp only [if_neg he, if_neg hs, List.cons_append, List.nil_append,
          List.append_nil] at hj ⊢
        rcases j with _ | _ | j <;> simp at hj
    · by_cases ha : anyTrigger ch values = true
      · -- WARNING only
        simp only [if_pos ha, if_neg hb, List.append_nil] at hj ⊢
        by_cases he : lookupKey ch.settings "email_enabled" = some "true"
        · simp only [if_pos he, List.cons_append, List.nil_append, List.append_nil] at hj ⊢
          rcases j with _ | _ | j
          · simp at hj
          · simp only [List.getElem?_cons_succ, List.getElem?_cons_zero] at hj
            rw [Option.some_inj] at hj
            rcases hj with ⟨h1, h2, h3⟩
            exact ⟨0, by omega, "WARNING",
              "Concerning smoke levels detected on atlaspc" ++ toString ch.atlaspc,
              by simp, Or.inl ⟨rfl, rfl⟩⟩
          · simp at hj
        · simp only [if_neg he, List.cons_append, List.nil_append, List.append_nil] at hj ⊢
          rcases j with _ | j <;> simp at hj
      · -- no trigger at all
        simp only [if_neg ha, if_neg hb, List.append_nil] at hj
        simp at hj

/-- C7 witness: the priority-2 warning notification at index 1 of the
concrete critical trace is preceded by the WARNING persistence. -/
theorem C7_witness :
    ∃ i, i < 1 ∧ ∃ sev msg,
      (check_alerts exCh exAll)[i]? =
        some (Event.saveAlert exCh.atlaspc exCh.channel sev msg exAll
          (calculate_z_scores exCh exAll)) ∧
      ((("2" : String) = "2" ∧ sev = "WARNING") ∨ (("2" : String) = "1" ∧ sev = "CRITICAL")) :=
  C7_persist_before_notify exCh exAll 1
    ("SMOKE LEVEL WARNING - atlaspc" ++ toString (20 : ℤ)) "2" (recipientsOf exSettings)
    (by rw [exCh_trace]; rfl)

end ClaimOrdering

section MonitorLemmas

theorem lookup_some_pos {κ β : Type} [DecidableEq κ] (l : List (κ × β)) (k : κ) (b : β)
    (h : lookupKey l k = some b) : 0 < l.length := by
  cases l with
  | nil => simp [lookupKey] at h
  | cons p t => simp

theorem lookup_replace {γ : Type} (l : List (ℤ × γ)) (k : ℤ) (x : γ)
    (h : (lookupKey l k).isSome = true) :
    lookupKey (l.map fun p => if p.1 = k then (p.1, x) else p) k = some x := by
  induction l with
  | nil => simp [lookupKey] at h
  | cons p t ih =>
      by_cases hp : p.1 = k
      · unfold lookupKey
        rw [List.map_cons, if_pos hp, List.find?_cons_of_pos _ (by simpa using hp)]
        simp
      · unfold lookupKey at h ⊢
        rw [List.map_cons, if_neg hp, List.find?_cons_of_neg _ (by simpa using hp)]
        rw [List.find?_cons_of_neg _ (by simpa using hp)] at h
        exact ih h

theorem lookup_append_singleton {γ : Type} (l : List (ℤ × γ)) (k : ℤ) (x : γ) :
    (lookupKey (l ++ [(k, x)]) k).isSome = true := by
  unfold lookupKey
  rw [List.find?_append]
  rcases hfl : List.find? (fun p => decide (p.1 = k)) l with _ | p <;>
    simp [List.find?, Option.or, hfl]

theorem get_or_create_lookup_isSome {α : Type} [LinearOrderedField α] (now : α)
    (m : SmokeDetectorMonitor α) (a cn : ℤ) :
    (lookupKey (get_or_create_channel now m a cn).1.channels cn).isSome = true := by
  unfold get_or_create_channel
  rcases h : lookupKey m.channels cn with _ | c
  · simp only
    exact lookup_append_singleton m.channels cn _
  · simp only [h]
    rfl

end MonitorLemmas

section ClaimDispatch

/-- C9: a frame whose channel tag is missing from the static
channel-to-unit table makes dispatch propagate an error (the raised
`ValueError`), rather than dropping the frame or filing it elsewhere. -/
theorem C9_unmapped_raises {α : Type} [LinearOrderedField α] (sqrt : α → α) (now : α)
    (m : SmokeDetectorMonitor α) (values : PyDict) (cn : ℤ)
    (hCH : lookupKey values "CH" = some cn)
    (hmap : lookupKey atlaspc_channel_map cn = none) :
    process_reading sqrt now m values =
      Except.error ("Channel " ++ toString cn ++ " is not mapped in an atlaspc.") := by
  have hlen : 0 < values.length := lookup_some_pos values "CH" cn hCH
  simp only [process_reading, if_pos hlen, hCH, hmap]

/-- C9 witness: channel tag 7 is unmapped and dispatch errors out. -/
theorem C9_witness :
    process_reading id (0 : ℚ) exMon [("CH", 7)] =
      Except.error ("Channel " ++ toString (7 : ℤ) ++ " is not mapped in an atlaspc.") :=
  C9_unmapped_raises id 0 exMon [("CH", 7)] 7 (by decide) (by decide)

/-- C8: no alert is persisted or notified while any baseline is unset: an
uncalibrated channel makes `check_alerts` a no-op, and the dispatch loop
instead logs the remaining calibration time for the channel. -/
theorem C8_uncalibrated_silent {α : Type} [LinearOrderedField α] (sqrt : α → α) (now : α)
    (m : SmokeDetectorMonitor α) (values : PyDict) (m2 : SmokeDetectorMonitor α)
    (evs : List (Event α)) (cn : ℤ) (ch2 : SmokeDetectorChannel α) :
    (∀ (ch : SmokeDetectorChannel α) (v : PyDict),
      is_calibrated ch = false → check_alerts ch v = []) ∧
    (process_reading sqrt now m values = Except.ok (m2, evs) →
      lookupKey values "CH" = some cn →
      lookupKey m2.channels cn = some ch2 →
      is_calibrated ch2 = false →
      evs.all (fun e => !isAlertEffect e) = true ∧
      Event.logCalibrating (get_remaining_calibration_time now ch2) ∈ evs) := by
  constructor
  · intro ch v h
    rw [check_alerts_eq, if_pos h]
  · intro hok hCH hlk hc2
    have hlen : 0 < values.length := lookup_some_pos values "CH" cn hCH
    rcases hmap : lookupKey atlaspc_channel_map cn with _ | atl
    · rw [show process_reading sqrt now m values =
          Except.error ("Channel " ++ toString cn ++ " is not mapped in an atlaspc.") from
          C9_unmapped_raises sqrt now m values cn hCH hmap] at hok
      exact absurd hok (by simp)
    · simp only [process_reading, if_pos hlen, hCH, hmap] at hok
      rw [Except.ok.injEq, Prod.mk.injEq] at hok
      obtain ⟨hm2, hevs⟩ := hok
      subst hm2
      subst hevs
      rw [lookup_replace _ _ _ (get_or_create_lookup_isSome now _ atl cn)] at hlk
      rw [Option.some_inj] at hlk
      subst hlk
      by_cases hsc : should_calculate_statistics now
          (add_reading (get_or_create_channel now
            { m with channels :=
                m.channels.map (fun p => (p.1, { p.2 with settings := m.settings })) }
            atl cn).2 values) = true
      · simp only [if_pos hsc] at hc2 ⊢
        simp only [hc2, show ((false : Bool) = true) = False from by simp, if_false]
        simp [isAlertEffect, calculate_statistics]
      · simp only [if_neg hsc] at hc2 ⊢
        simp only [hc2, show ((false : Bool) = true) = False from by simp, if_false]
        simp [isAlertEffect]

/-- Evaluation of one dispatch of `exAll` on a fresh monitor: the channel is
created, the reading recorded, and only the calibration countdown is logged. -/
theorem exMon_step : process_reading id (0 : ℚ) exMon exAll =
    Except.ok ({ channels := [(1, exDispatched)], settings := exSettings },
      [Event.saveReading 20 1 exAll,
       Event.logCalibrating (get_remaining_calibration_time (0 : ℚ) exDispatched)]) := by
  have hd : add_reading
      { atlaspc := 20, channel := 1, settings := exSettings,
        saved_values := ⟨[], [], []⟩, means := ⟨none, none, none⟩,
        sds := ⟨none, none, none⟩, last_calculation_time := (0 : ℚ) } exAll = exDispatched := by
    simp only [add_reading, wavelengths, List.foldl_cons, List.foldl_nil, Wavelength.key,
      exAll_R, exAll_G, exAll_IR, WTriple.set, WTriple.get]
    norm_num [exDispatched]
  have hsc : should_calculate_statistics (0 : ℚ) exDispatched = false := by
    simp only [should_calculate_statistics, calculation_interval, exDispatched,
      decide_eq_false_iff_not, not_le]
    norm_num
  have hcal : is_calibrated exDispatched = false := by decide
  simp only [process_reading, exMon, List.map_nil,
    if_pos (show 0 < exAll.length from by decide), exAll_CH,
    show lookupKey atlaspc_channel_map 1 = some 20 from by decide,
    get_or_create_channel,
    show lookupKey ([] : List (ℤ × SmokeDetectorChannel ℚ)) 1 = none from rfl]
  rw [hd]
  rw [if_neg (by rw [hsc]; simp)]
  rw [if_neg (by rw [hcal]; simp)]
  simp

/-- C8 witness: the uncalibrated dispatch of `exAll` performs no alert
persistence or notification and logs the remaining calibration time. -/
theorem C8_witness :
    ([Event.saveReading 20 1 exAll,
      Event.logCalibrating (get_remaining_calibration_time (0 : ℚ) exDispatched)].all
        (fun e => !isAlertEffect e) = true) ∧
    Event.logCalibrating (get_remaining_calibration_time (0 : ℚ) exDispatched) ∈
      [Event.saveReading 20 1 exAll,
       Event.logCalibrating (get_remaining_calibration_time (0 : ℚ) exDispatched)] :=
  (C8_uncalibrated_silent id 0 exMon exAll
      { channels := [(1, exDispatched)], settings := exSettings }
      [Event.saveReading 20 1 exAll,
       Event.logCalibrating (get_remaining_calibration_time (0 : ℚ) exDispatched)]
      1 exDispatched).2 exMon_step (by decide) (by decide) (by decide)

end ClaimDispatch

section StatLemmas

variable {α : Type} [LinearOrderedField α]

theorem statStep_means_ne (sqrt : α → α) (st : SmokeDetectorChannel α) (w x : Wavelength)
    (h : w ≠ x) : (statStep sqrt st x).means.get w = st.means.get w := by
  unfold statStep
  split <;> simp [WTriple.get_set_ne _ _ _ _ h]

theorem statStep_sds_ne (sqrt : α → α) (st : SmokeDetectorChannel α) (w x : Wavelength)
    (h : w ≠ x) : (statStep sqrt st x).sds.get w = st.sds.get w := by
  unfold statStep
  split <;> simp [WTriple.get_set_ne _ _ _ _ h]

theorem statStep_saved_ne (sqrt : α → α) (st : SmokeDetectorChannel α) (w x : Wavelength)
    (h : w ≠ x) : (statStep sqrt st x).saved_values.get w = st.saved_values.get w := by
  unfold statStep
  split <;> simp [WTriple.get_set_ne _ _ _ _ h]

theorem statStep_means_self (sqrt : α → α) (st : SmokeDetectorChannel α) (w : Wavelength) :
    (statStep sqrt st w).means.get w =
      if 0 < (st.saved_values.get w).length then some (nanmean (st.saved_values.get w))
      else st.means.get w := by
  unfold statStep
  split <;> simp [WTriple.get_set_self]

theorem statStep_sds_self (sqrt : α → α) (st : SmokeDetectorChannel α) (w : Wavelength) :
    (statStep sqrt st w).sds.get w =
      if 0 < (st.saved_values.get w).length then some (nanstd sqrt (st.saved_values.get w))
      else st.sds.get w := by
  unfold statStep
  split <;> simp [WTriple.get_set_self]

/-- What the recompute does to one wavelength baseline mean: overwritten from
the buffer when the buffer is non-empty, untouched otherwise. -/
theorem calcstats_means_get (sqrt : α → α) (now : α) (ch : SmokeDetectorChannel α)
    (w : Wavelength) :
    (calculate_statistics sqrt now ch).1.means.get w =
      if 0 < (ch.saved_values.get w).length then some (nanmean (ch.saved_values.get w))
      else ch.means.get w := by
  show (wavelengths.foldl (statStep sqrt) ch).means.get w = _
  simp only [wavelengths, List.foldl_cons, List.foldl_nil]
  cases w
  · rw [statStep_means_ne _ _ _ _ (by decide), statStep_means_ne _ _ _ _ (by decide),
      statStep_means_self]
  · rw [statStep_means_ne _ _ _ _ (by decide), statStep_means_self,
      statStep_saved_ne _ _ _ _ (by decide), statStep_means_ne _ _ _ _ (by decide)]
  · rw [statStep_means_self, statStep_saved_ne _ _ _ _ (by decide),
      statStep_saved_ne _ _ _ _ (by decide), statStep_means_ne _ _ _ _ (by decide),
      statStep_means_ne _ _ _ _ (by decide)]

/-- Same for the standard deviation. -/
theorem calcstats_sds_get (sqrt : α → α) (now : α) (ch : SmokeDetectorChannel α)
    (w : Wavelength) :
    (calculate_statistics sqrt now ch).1.sds.get w =
      if 0 < (ch.saved_values.get w).length then some (nanstd sqrt (ch.saved_values.get w))
      else ch.sds.get w := by
  show (wavelengths.foldl (statStep sqrt) ch).sds.get w = _
  simp only [wavelengths, List.foldl_cons, List.foldl_nil]
  cases w
  · rw [statStep_sds_ne _ _ _ _ (by decide), statStep_sds_ne _ _ _ _ (by decide),
      statStep_sds_self]
  · rw [statStep_sds_ne _ _ _ _ (by decide), statStep_sds_self,
      statStep_saved_ne _ _ _ _ (by decide), statStep_sds_ne _ _ _ _ (by decide)]
  · rw [statStep_sds_self, statStep_saved_ne _ _ _ _ (by decide),
      statStep_saved_ne _ _ _ _ (by decide), statStep_sds_ne _ _ _ _ (by decide),
      statStep_sds_ne _ _ _ _ (by decide)]

theorem sum_sq_dev (μ : α) (vs : List α) :
    (vs.map (fun x => (x - μ) ^ 2)).sum
      = (vs.map (fun x => x ^ 2)).sum - 2 * μ * vs.sum + (vs.length : α) * μ ^ 2 := by
  induction vs with
  | nil => simp
  | cons a t ih =>
      simp only [List.map_cons, List.sum_cons, List.length_cons, ih]
      push_cast
      ring

/-- The mean of squared deviations computed by `nanstd` equals the
second-moment form of the population variance. -/
theorem mean_sq_dev_eq_specPopVar (vs : List α) (h : vs ≠ []) :
    (vs.map (fun x => (x - vs.sum / (vs.length : α)) ^ 2)).sum / (vs.length : α)
      = specPopVar vs := by
  have hn : (vs.length : α) ≠ 0 := by
    have h2 : vs.length ≠ 0 := fun he => h (List.length_eq_zero.1 he)
    exact Nat.cast_ne_zero.2 h2
  rw [sum_sq_dev]
  unfold specPopVar
  field_simp
  ring

end StatLemmas

section ClaimStats

/-- C10: `add_reading` appends exactly one element to each of the three
buffers (the present value, or NaN when absent), so buffers of equal length
stay of equal length. -/
theorem C10_buffers_grow {α : Type} [LinearOrderedField α]
    (ch : SmokeDetectorChannel α) (values : PyDict) :
    (∀ w, (add_reading ch values).saved_values.get w
        = ch.saved_values.get w ++
          [((lookupKey values w.key).map (fun v => NF.val (v : α))).getD NF.nan]) ∧
    (∀ w, ((add_reading ch values).saved_values.get w).length
        = (ch.saved_values.get w).length + 1) ∧
    ((ch.saved_values.R.length = ch.saved_values.G.length ∧
      ch.saved_values.G.length = ch.saved_values.IR.length) →
      ((add_reading ch values).saved_values.R.length
          = (add_reading ch values).saved_values.G.length ∧
       (add_reading ch values).saved_values.G.length
          = (add_reading ch values).saved_values.IR.length)) := by
  have h1 : ∀ w, (add_reading ch values).saved_values.get w
      = ch.saved_values.get w ++
        [((lookupKey values w.key).map (fun v => NF.val (v : α))).getD NF.nan] := by
    intro w
    unfold add_reading
    simp only [wavelengths, List.foldl_cons, List.foldl_nil]
    cases w <;>
      rcases hR : lookupKey values "R" with _ | vR <;>
      rcases hG : lookupKey values "G" with _ | vG <;>
      rcases hIR : lookupKey values "IR" with _ | vIR <;>
        simp [Wavelength.key, hR, hG, hIR, WTriple.set, WTriple.get]
  have h2 : ∀ w, ((add_reading ch values).saved_values.get w).length
      = (ch.saved_values.get w).length + 1 := by
    intro w
    rw [h1 w]
    simp
  refine ⟨h1, h2, ?_⟩
  rintro ⟨hRG, hGI⟩
  have hR2 := h2 Wavelength.R
  have hG2 := h2 Wavelength.G
  have hIR2 := h2 Wavelength.IR
  simp only [WTriple.get] at hR2 hG2 hIR2
  omega

/-- C10 witness: the appended sample on the concrete channel, and the
equal-length invariant. -/
theorem C10_witness :
    (add_reading exCh exAll).saved_values.get Wavelength.R
      = exCh.saved_values.get Wavelength.R ++
        [((lookupKey exAll (Wavelength.key Wavelength.R)).map
            (fun v => NF.val (v : ℚ))).getD NF.nan] ∧
    ((add_reading exCh exAll).saved_values.R.length
        = (add_reading exCh exAll).saved_values.G.length ∧
     (add_reading exCh exAll).saved_values.G.length
        = (add_reading exCh exAll).saved_values.IR.length) :=
  ⟨(C10_buffers_grow exCh exAll).1 Wavelength.R,
   (C10_buffers_grow exCh exAll).2.2 (by decide)⟩

/-- C4 (amended): an empty buffer leaves the previous baseline untouched for
that wavelength, but a non-empty all-missing buffer overwrites the baseline
mean and standard deviation with NaN rather than leaving them untouched. -/
theorem C4_recompute_baseline {α : Type} [LinearOrderedField α] (sqrt : α → α) (now : α)
    (ch : SmokeDetectorChannel α) (w : Wavelength) :
    (ch.saved_values.get w = [] →
      (calculate_statistics sqrt now ch).1.means.get w = ch.means.get w ∧
      (calculate_statistics sqrt now ch).1.sds.get w = ch.sds.get w) ∧
    (ch.saved_values.get w ≠ [] → nonMissing (ch.saved_values.get w) = [] →
      (calculate_statistics sqrt now ch).1.means.get w = some NF.nan ∧
      (calculate_statistics sqrt now ch).1.sds.get w = some NF.nan) := by
  constructor
  · intro he
    rw [calcstats_means_get, calcstats_sds_get, he]
    simp
  · intro hne hmiss
    have hpos : 0 < (ch.saved_values.get w).length := List.length_pos.2 hne
    rw [calcstats_means_get, calcstats_sds_get, if_pos hpos, if_pos hpos]
    unfold nanmean nanstd
    rw [hmiss]
    simp

/-- C4 counterexample to the claim as stated: a non-empty all-NaN R buffer
with a previously set R baseline does not leave the baseline untouched — the
recompute overwrites it with NaN. -/
theorem C4_counterexample :
    exNanBuf.saved_values.get Wavelength.R ≠ [] ∧
    nonMissing (exNanBuf.saved_values.get Wavelength.R) = [] ∧
    exNanBuf.means.get Wavelength.R = some (NF.val 0) ∧
    (calculate_statistics id (0 : ℚ) exNanBuf).1.means.get Wavelength.R = some NF.nan ∧
    (calculate_statistics id (0 : ℚ) exNanBuf).1.means.get Wavelength.R ≠
      exNanBuf.means.get Wavelength.R := by
  decide

/-- C4 witness: the empty-buffer case leaves the baseline untouched and the
all-NaN case produces the NaN baseline. -/
theorem C4_witness :
    ((calculate_statistics id (0 : ℚ) exCh).1.means.get Wavelength.R
        = exCh.means.get Wavelength.R ∧
     (calculate_statistics id (0 : ℚ) exCh).1.sds.get Wavelength.R
        = exCh.sds.get Wavelength.R) ∧
    ((calculate_statistics id (0 : ℚ) exNanBuf).1.means.get Wavelength.R = some NF.nan ∧
     (calculate_statistics id (0 : ℚ) exNanBuf).1.sds.get Wavelength.R = some NF.nan) :=
  ⟨(C4_recompute_baseline id 0 exCh Wavelength.R).1 (by decide),
   (C4_recompute_baseline id 0 exNanBuf Wavelength.R).2 (by decide) (by decide)⟩

/-- C5: on a buffer with at least one non-missing value, the recompute sets
the baseline mean to the arithmetic mean of the non-missing values and the
baseline standard deviation to the population standard deviation (square
root of the second-moment population variance, no Bessel correction),
ignoring missing values in both. -/
theorem C5_population_stats (now : ℝ) (ch : SmokeDetectorChannel ℝ) (w : Wavelength)
    (h : nonMissing (ch.saved_values.get w) ≠ []) :
    (calculate_statistics Real.sqrt now ch).1.means.get w
      = some (NF.val (specMean (nonMissing (ch.saved_values.get w)))) ∧
    (calculate_statistics Real.sqrt now ch).1.sds.get w
      = some (NF.val (Real.sqrt (specPopVar (nonMissing (ch.saved_values.get w))))) := by
  have hbuf : ch.saved_values.get w ≠ [] := by
    intro he
    rw [he] at h
    exact h rfl
  have hpos : 0 < (ch.saved_values.get w).length := List.length_pos.2 hbuf
  have hlen : ¬(nonMissing (ch.saved_values.get w)).length = 0 := by
    simpa [List.length_eq_zero] using h
  constructor
  · rw [calcstats_means_get, if_pos hpos]
    unfold nanmean
    rw [if_neg hlen]
    rfl
  · rw [calcstats_sds_get, if_pos hpos]
    unfold nanstd
    rw [if_neg hlen]
    simp only [mean_sq_dev_eq_specPopVar _ h]

/-- C5 witness: the R buffer 1, NaN, 3 yields mean and population standard
deviation of the non-missing samples 1 and 3. -/
theorem C5_witness :
    (calculate_statistics Real.sqrt 0 exChR).1.means.get Wavelength.R
      = some (NF.val (specMean (nonMissing (exChR.saved_values.get Wavelength.R)))) ∧
    (calculate_statistics Real.sqrt 0 exChR).1.sds.get Wavelength.R
      = some (NF.val (Real.sqrt (specPopVar (nonMissing (exChR.saved_values.get Wavelength.R))))) :=
  C5_population_stats 0 exChR Wavelength.R
    (by simp [nonMissing, exChR, WTriple.get])

end ClaimStats

section ParserLemmas

theorem pyContains_cons (c : Char) (t pat : List Char) :
    pyContains (c :: t) pat = (startsWithChars (c :: t) pat || pyContains t pat) := rfl

theorem pyContains_append_right (xs ys pat : List Char)
    (h : pyContains ys pat = true) : pyContains (xs ++ ys) pat = true := by
  induction xs with
  | nil => simpa
  | cons c t ih =>
      rw [List.cons_append, pyContains_cons, ih]
      simp

theorem splitOnChar_append_sep (sep : Char) (xs ys : List Char) (h : sep ∉ xs) :
    splitOnChar sep (xs ++ sep :: ys) = xs :: splitOnChar sep ys := by
  induction xs with
  | nil => simp [splitOnChar]
  | cons c t ih =>
      have hc : ¬c = sep := fun he => h (he ▸ List.mem_cons_self c t)
      have ht : sep ∉ t := fun hm => h (List.mem_cons_of_mem _ hm)
      simp only [List.cons_append, splitOnChar, if_neg hc, List.append_eq, ih ht]

theorem splitOnChar_not_mem (sep : Char) (xs : List Char) (h : sep ∉ xs) :
    splitOnChar sep xs = [xs] := by
  induction xs with
  | nil => rfl
  | cons c t ih =>
      have hc : ¬c = sep := fun he => h (he ▸ List.mem_cons_self c t)
      have ht : sep ∉ t := fun hm => h (List.mem_cons_of_mem _ hm)
      simp only [splitOnChar, if_neg hc, ih ht]

theorem trimChars_eq_self (cs : List Char) (h : ∀ c ∈ cs, c.isWhitespace = false) :
    trimChars cs = cs := by
  have h1 : cs.dropWhile Char.isWhitespace = cs := by
    cases cs with
    | nil => rfl
    | cons c t =>
        rw [List.dropWhile_cons, if_neg]
        simp [h c (List.mem_cons_self c t)]
  have h2 : cs.reverse.dropWhile Char.isWhitespace = cs.reverse := by
    cases hr : cs.reverse with
    | nil => rfl
    | cons c t =>
        rw [List.dropWhile_cons, if_neg]
        have hc : c ∈ cs := by
          rw [← List.mem_reverse, hr]
          exact List.mem_cons_self c t
        simp [h c hc]
  unfold trimChars
  rw [h1, h2, List.reverse_reverse]

theorem digit_char_spec (c : Char) (h : c ∈ digitChars) :
    c.isDigit = true ∧ c.isWhitespace = false ∧ ¬c = ';' ∧ ¬c = ':' ∧ ¬c = '_' := by
  fin_cases h <;> exact ⟨by decide, by decide, by decide, by decide, by decide⟩

theorem digitRun_digits (ds : List Char) (h : ∀ c ∈ ds, c ∈ digitChars) :
    digitRun ds = true := by
  induction ds with
  | nil => rfl
  | cons c t ih =>
      have hc := digit_char_spec c (h c (List.mem_cons_self c t))
      unfold digitRun
      rw [if_neg hc.2.2.2.2]
      rw [hc.1, ih (fun d hd => h d (List.mem_cons_of_mem _ hd))]
      rfl

theorem filter_no_underscore (ds : List Char) (h : ∀ c ∈ ds, c ∈ digitChars) :
    ds.filter (fun d => d ≠ '_') = ds := by
  apply List.filter_eq_self.2
  intro c hc
  simp [(digit_char_spec c (h c hc)).2.2.2.2]

theorem pyNat_digits (ds : List Char) (hne : ds ≠ []) (h : ∀ c ∈ ds, c ∈ digitChars) :
    pyNat ds = some (digitsToNat ds) := by
  rcases ds with _ | ⟨c, t⟩
  · exact absurd rfl hne
  · show (if (c.isDigit && digitRun (c :: t)) = true then
        some (digitsToNat ((c :: t).filter (fun d => d ≠ '_'))) else none)
      = some (digitsToNat (c :: t))
    rw [if_pos (by
      rw [(digit_char_spec c (h c (List.mem_cons_self c t))).1, digitRun_digits _ h]
      rfl)]
    rw [filter_no_underscore _ h]

theorem no_ws_of_digits (ds : List Char) (h : ∀ c ∈ ds, c ∈ digitChars) :
    ∀ c ∈ ds, c.isWhitespace = false :=
  fun c hc => (digit_char_spec c (h c hc)).2.1

theorem pyInt_neg_digits (ds : List Char) (hne : ds ≠ []) (h : ∀ c ∈ ds, c ∈ digitChars) :
    pyInt ('-' :: ds) = some (-(digitsToNat ds : ℤ)) := by
  have hws : ∀ c ∈ '-' :: ds, c.isWhitespace = false := by
    intro c hc
    rcases List.mem_cons.1 hc with rfl | hm
    · decide
    · exact no_ws_of_digits ds h c hm
  have hred : pyInt ('-' :: ds) = (pyNat ds).map (fun n => -Int.ofNat n) := by
    unfold pyInt
    rw [trimChars_eq_self ('-' :: ds) hws]
    rfl
  rw [hred, pyNat_digits ds hne h]
  rfl

end ParserLemmas

section ClaimParser

/-- C3 (amended): `parse_line` applies no positivity filter: a wavelength
field whose value parses as an integer is included in the output mapping
with that value even when it is non-positive (here, any value written as a
minus sign followed by digits, hence ≤ 0). -/
theorem C3_nonpositive_included (ds : List Char) (hne : ds ≠ [])
    (hd : ∀ c ∈ ds, c ∈ digitChars) :
    parse_line (String.mk ("CH:1;R:-".data ++ ds ++ ";IR:3;G:4;".data))
      = [("CH", 1), ("R", -(digitsToNat ds : ℤ)), ("IR", 3), ("G", 4)] ∧
    -(digitsToNat ds : ℤ) ≤ 0 := by
  refine ⟨?_, by omega⟩
  have hsemi : (';' : Char) ∉ ds := fun hm => (digit_char_spec _ (hd _ hm)).2.2.1 rfl
  have hcolon : (':' : Char) ∉ ds := fun hm => (digit_char_spec _ (hd _ hm)).2.2.2.1 rfl
  have hws : ∀ c ∈ ['R', ':', '-'] ++ ds, c.isWhitespace = false := by
    intro c hc
    rcases List.mem_append.1 hc with hm | hm
    · fin_cases hm <;> decide
    · exact no_ws_of_digits ds hd c hm
  have hdata : ['C', 'H', ':', '1', ';', 'R', ':', '-'] ++ ds ++
        [';', 'I', 'R', ':', '3', ';', 'G', ':', '4', ';']
      = ['C', 'H', ':', '1'] ++ ';' ::
          ((['R', ':', '-'] ++ ds) ++ ';' ::
            (['I', 'R', ':', '3'] ++ ';' :: (['G', ':', '4'] ++ ';' :: []))) := by
    simp
  have hsplit : splitOnChar ';' (['C', 'H', ':', '1', ';', 'R', ':', '-'] ++ ds ++
        [';', 'I', 'R', ':', '3', ';', 'G', ':', '4', ';'])
      = [['C', 'H', ':', '1'], ['R', ':', '-'] ++ ds, ['I', 'R', ':', '3'],
         ['G', ':', '4'], []] := by
    rw [hdata]
    rw [splitOnChar_append_sep ';' ['C', 'H', ':', '1'] _ (by decide)]
    rw [splitOnChar_append_sep ';' (['R', ':', '-'] ++ ds) _ (by
      intro hm
      rcases List.mem_append.1 hm with hm2 | hm2
      · revert hm2
        decide
      · exact hsemi hm2)]
    rw [splitOnChar_append_sep ';' ['I', 'R', ':', '3'] _ (by decide)]
    rw [splitOnChar_append_sep ';' ['G', ':', '4'] _ (by decide)]
    rfl
  have htr1 : trimChars (['R', ':', '-'] ++ ds) = ['R', ':', '-'] ++ ds :=
    trimChars_eq_self _ hws
  have hCHin : pyContains (['C', 'H', ':', '1', ';', 'R', ':', '-'] ++ ds ++
      [';', 'I', 'R', ':', '3', ';', 'G', ':', '4', ';']) ['C', 'H'] = true := by
    show pyContains ('C' :: 'H' :: ':' :: '1' :: ';' :: 'R' :: ':' :: '-' ::
      (ds ++ [';', 'I', 'R', ':', '3', ';', 'G', ':', '4', ';'])) ['C', 'H'] = true
    rw [pyContains_cons]
    simp [startsWithChars]
  have hRin : pyContains (['C', 'H', ':', '1', ';', 'R', ':', '-'] ++ ds ++
      [';', 'I', 'R', ':', '3', ';', 'G', ':', '4', ';']) ['R'] = true :=
    pyContains_append_right _ _ _ (by decide)
  have hGin : pyContains (['C', 'H', ':', '1', ';', 'R', ':', '-'] ++ ds ++
      [';', 'I', 'R', ':', '3', ';', 'G', ':', '4', ';']) ['G'] = true :=
    pyContains_append_right _ _ _ (by decide)
  have hIRin : pyContains (['C', 'H', ':', '1', ';', 'R', ':', '-'] ++ ds ++
      [';', 'I', 'R', ':', '3', ';', 'G', ':', '4', ';']) ['I', 'R'] = true :=
    pyContains_append_right _ _ _ (by decide)
  have hc1 : splitOnChar ':' (['R', ':', '-'] ++ ds) = [['R'], '-' :: ds] := by
    show splitOnChar ':' (['R'] ++ ':' :: ('-' :: ds)) = [['R'], '-' :: ds]
    rw [splitOnChar_append_sep ':' ['R'] _ (by decide)]
    rw [splitOnChar_not_mem ':' ('-' :: ds) (by
      intro hm
      rcases List.mem_cons.1 hm with he | hm2
      · exact absurd he (by decide)
      · exact hcolon hm2)]
  have hi1 : pyInt ('-' :: ds) = some (-(digitsToNat ds : ℤ)) := pyInt_neg_digits ds hne hd
  simp only [parse_line]
  rw [hsplit]
  simp only [List.map_cons, List.map_nil, htr1,
    show trimChars ['C', 'H', ':', '1'] = ['C', 'H', ':', '1'] from by decide,
    show trimChars ['I', 'R', ':', '3'] = ['I', 'R', ':', '3'] from by decide,
    show trimChars ['G', ':', '4'] = ['G', ':', '4'] from by decide,
    show trimChars ([] : List Char) = [] from by decide]
  rw [if_neg (by
    simp only [List.length_cons, List.length_nil, List.getD_cons_zero]
    norm_num [pyContains, startsWithChars])]
  rw [if_neg (by
    rw [hCHin, hRin, hGin, hIRin]
    norm_num)]
  simp only [List.getD_cons_zero, List.getD_cons_succ]
  rw [hc1]
  rw [show splitOnChar ':' ['C', 'H', ':', '1'] = [['C', 'H'], ['1']] from by decide,
    show splitOnChar ':' ['I', 'R', ':', '3'] = [['I', 'R'], ['3']] from by decide,
    show splitOnChar ':' ['G', ':', '4'] = [['G'], ['4']] from by decide]
  simp only [hi1,
    show pyInt ['1'] = some 1 from by decide,
    show pyInt ['3'] = some 3 from by decide,
    show pyInt ['4'] = some 4 from by decide]
  simp [dictInsert,
    show String.mk ['C', 'H'] = "CH" from rfl,
    show String.mk ['R'] = "R" from rfl,
    show String.mk ['I', 'R'] = "IR" from rfl,
    show String.mk ['G'] = "G" from rfl]

/-- C3 counterexample to the claim as stated: a line whose R field is the
integer 0 is parsed with the R field present and equal to 0, not omitted. -/
theorem C3_counterexample :
    parse_line "CH:1;R:0;IR:3;G:4;" = [("CH", 1), ("R", 0), ("IR", 3), ("G", 4)] ∧
    lookupKey (parse_line "CH:1;R:0;IR:3;G:4;") "R" = some 0 ∧ (0 : ℤ) ≤ 0 := by
  exact ⟨by decide, by decide, by decide⟩

/-- C3 witness: the amended statement at the single digit 5, parsing R to
the non-positive value -5. -/
theorem C3_witness :
    parse_line (String.mk ("CH:1;R:-".data ++ ['5'] ++ ";IR:3;G:4;".data))
      = [("CH", 1), ("R", -(digitsToNat ['5'] : ℤ)), ("IR", 3), ("G", 4)] ∧
    -(digitsToNat ['5'] : ℤ) ≤ 0 :=
  C3_nonpositive_included ['5'] (by decide) (by decide)

end ClaimParser

end SmokeMonitor
